import Mathlib

/-!
Verification of the quiz-response parser of `src/quiz_generator.py`
(`QuizGenerator.parse_quiz` and `QuizGenerator._is_valid_question`).

The parser is embedded shallowly: Python string primitives (`str.strip`,
`str.lower`, `str.startswith`, `str.split`, slicing, indexing) are modelled
as executable Lean functions over the character list of a `String`, the
accumulator dictionary is modelled as a structure of three optional fields
(exactly the keys the source ever writes), and the two runtime errors the
source can raise (`KeyError` on `current_q["options"]` when the key is
absent, `IndexError` on `[0]` of an empty string) are modelled with
`Except`.  `Char.toLower` covers the ASCII case folding exercised by the
parser's prefix tests.
-/

/-- Python `str.isspace` characters relevant to `str.strip()`. -/
def pyIsSpace (c : Char) : Bool :=
  c == ' ' || c == '\t' || c == '\n' || c == '\r' || c == '\x0b' || c == '\x0c'

/-- Python `s.strip()`: remove leading and trailing whitespace. -/
def pyStrip (s : String) : String :=
  ⟨((s.data.dropWhile pyIsSpace).reverse.dropWhile pyIsSpace).reverse⟩

/-- Python `s.lower()` (ASCII case folding). -/
def pyLower (s : String) : String :=
  ⟨s.data.map Char.toLower⟩

/-- Python `s.startswith(p)`. -/
def pyStartsWith (s p : String) : Bool :=
  p.data.isPrefixOf s.data

/-- Python `s[n:]` (slicing by code points). -/
def pyDropChars (s : String) (n : Nat) : String :=
  ⟨s.data.drop n⟩

/-- Helper for Python `s.split(sep)` with a one-character separator. -/
def splitCharAux (sep : Char) : List Char → List Char → List (List Char)
  | [], acc => [acc.reverse]
  | c :: cs, acc =>
    if c == sep then acc.reverse :: splitCharAux sep cs []
    else splitCharAux sep cs (c :: acc)

/-- Python `s.split(sep)` for a one-character separator
(`"".split(sep) == [""]`, empty segments kept). -/
def pySplit (sep : Char) (s : String) : List String :=
  (splitCharAux sep s.data []).map (fun cs => ⟨cs⟩)

/-- Helper for Python `s.split(sep, 1)[-1]`: the characters after the first
occurrence of `sep`. -/
def dropThroughFirst (sep : Char) : List Char → List Char
  | [] => []
  | c :: cs => if c == sep then cs else dropThroughFirst sep cs

/-- Python `line.split(":", 1)[-1]`: the text after the first colon, or the
whole string when it has no colon. -/
def afterFirstColon (s : String) : String :=
  if s.data.contains ':' then ⟨dropThroughFirst ':' s.data⟩ else s

/-- Python `line.split(":")[-1]`: the text after the last colon (the whole
string when it has no colon). -/
def lastColonSegment (s : String) : String :=
  (pySplit ':' s).getLastD ""

/-- The two runtime errors `parse_quiz` can raise: `KeyError` from
`current_q["options"]` when the accumulator lacks the key, `IndexError`
from `[0]` applied to an empty string. -/
inductive PyError where
  | keyError
  | indexError
deriving Repr, DecidableEq

/-- The accumulator dictionary `current_q`.  The source only ever writes the
keys `"question"`, `"options"`, `"answer"`, so a dictionary state is three
optional fields; `none` models an absent key. -/
structure QDict where
  question : Option String
  options : Option (List String)
  answer : Option String
deriving Repr, DecidableEq

/-- The initial accumulator `current_q = {}`. -/
def emptyQ : QDict := ⟨none, none, none⟩

/-- Python truthiness of the accumulator dictionary: `{}` is falsy, any
dictionary with at least one key is truthy. -/
def dictTruthy (d : QDict) : Bool :=
  d.question.isSome || d.options.isSome || d.answer.isSome

/-- `line.lower().startswith("question")`. -/
def isQuestionLine (l : String) : Bool :=
  pyStartsWith (pyLower l) "question"

/-- `line.startswith(("A)", "B)", "C)", "D)"))` — note: case-sensitive. -/
def isOptionLine (l : String) : Bool :=
  pyStartsWith l "A)" || pyStartsWith l "B)" || pyStartsWith l "C)" || pyStartsWith l "D)"

/-- `line.lower().startswith("answer:")`. -/
def isAnswerLine (l : String) : Bool :=
  pyStartsWith (pyLower l) "answer:"

/-- `line.split(":")[-1].strip().lower()` — the text from which the answer
letter is taken (its first character, if any, becomes the answer). -/
def answerSegment (l : String) : String :=
  pyLower (pyStrip (lastColonSegment l))

/-- One iteration of the `for line in lines` loop of `parse_quiz`, acting on
the state `(questions, current_q)`. -/
def processLine (st : List QDict × QDict) (line : String) :
    Except PyError (List QDict × QDict) :=
  let questions := st.1
  let cur := st.2
  if isQuestionLine line then
    let questions := if dictTruthy cur then questions ++ [cur] else questions
    Except.ok (questions,
      { question := some (pyStrip (afterFirstColon line))
        options := some []
        answer := some "" })
  else if isOptionLine line then
    match cur.options with
    | none => Except.error PyError.keyError
    | some os =>
      Except.ok (questions, { cur with options := some (os ++ [pyStrip (pyDropChars line 3)]) })
  else if isAnswerLine line then
    match (answerSegment line).data with
    | [] => Except.error PyError.indexError
    | c :: _ => Except.ok (questions, { cur with answer := some (String.singleton c) })
  else
    Except.ok (questions, cur)

/-- The whole `for` loop: fold `processLine` over the lines, propagating a
raised error. -/
def runLines : List QDict × QDict → List String → Except PyError (List QDict × QDict)
  | st, [] => Except.ok st
  | st, line :: rest =>
    match processLine st line with
    | Except.error e => Except.error e
    | Except.ok st' => runLines st' rest

/-- `[line.strip() for line in response_text.split('\n') if line.strip()]`. -/
def splitLines (t : String) : List String :=
  ((pySplit '\n' t).map pyStrip).filter (fun l => !l.isEmpty)

/-- `QuizGenerator._is_valid_question`: exactly 4 options, answer in
`['a','b','c','d']`, truthy (non-empty) question text; `.get` defaults model
absent keys. -/
def is_valid_question (q : QDict) : Bool :=
  (q.options.getD []).length == 4 &&
  ["a", "b", "c", "d"].contains (q.answer.getD "") &&
  !(q.question.getD "").isEmpty

/-- `QuizGenerator.parse_quiz`.  Note the loop body never appends the still
open `current_q` after the last line; the result is the accumulated records
filtered by `_is_valid_question` and truncated with `[:5]`. -/
def parse_quiz (response_text : String) : Except PyError (List QDict) :=
  match runLines ([], emptyQ) (splitLines response_text) with
  | Except.error e => Except.error e
  | Except.ok st => Except.ok ((st.1.filter is_valid_question).take 5)

/-- If no line of a list matches any of the three recognized prefixes, the
loop leaves the state untouched and raises nothing. -/
theorem runLines_unrecognized (ls : List String) :
    ∀ st : List QDict × QDict,
      (∀ l ∈ ls, isQuestionLine l = false ∧ isOptionLine l = false ∧ isAnswerLine l = false) →
      runLines st ls = Except.ok st := by
  induction ls with
  | nil => intro st _; rfl
  | cons l rest ih =>
    intro st h
    have hl := h l (List.mem_cons_self l rest)
    have hrest := fun x hx => h x (List.mem_cons_of_mem l hx)
    simp only [runLines, processLine, hl.1, hl.2.1, hl.2.2, Bool.false_eq_true, if_false]
    exact ih st hrest

/-- C1: evaluation of `parse_quiz` at the spec's concrete one-block input.
The claim (and the spec) say the still open record is appended after the
scan, yielding one record; the code has no final append, so the input
yields the empty list. -/
theorem C1_last_record_dropped :
    parse_quiz "Question 1: What is 2+2?\nA) 3\nB) 4\nC) 5\nD) 6\nAnswer: B" =
      Except.ok [] := rfl

/-- C2 counterexample: `parse_quiz` is not total.  On the input `"A) x"` —
an option line with no open record — the loop evaluates
`current_q["options"]` on the empty dictionary and raises `KeyError`. -/
theorem C2_counterexample :
    parse_quiz "A) x" = Except.error PyError.keyError := rfl

/-- C2 (amended): `parse_quiz` does return an empty list on every input none
of whose trimmed non-empty lines matches a recognized prefix (in particular
on the empty string); totality fails only on malformed prefixed lines. -/
theorem C2_total_on_unrecognized (s : String)
    (h : ∀ l ∈ splitLines s,
      isQuestionLine l = false ∧ isOptionLine l = false ∧ isAnswerLine l = false) :
    parse_quiz s = Except.ok [] := by
  unfold parse_quiz
  rw [runLines_unrecognized (splitLines s) ([], emptyQ) h]
  rfl

/-- C2 witness: the empty string vacuously has no recognized line and
yields the empty list. -/
theorem C2_witness : parse_quiz "" = Except.ok [] :=
  C2_total_on_unrecognized "" (by decide)

/-- C4: whenever `parse_quiz` returns a list (rather than raising), every
record in it passes `_is_valid_question`: exactly 4 options, an answer
letter in `{a,b,c,d}`, and a non-empty question string. -/
theorem C4_all_returned_records_valid (s : String) (l : List QDict)
    (h : parse_quiz s = Except.ok l) :
    ∀ q ∈ l, is_valid_question q = true := by
  intro q hq
  unfold parse_quiz at h
  cases hrun : runLines ([], emptyQ) (splitLines s) with
  | error e => rw [hrun] at h; cases h
  | ok st =>
    rw [hrun] at h
    cases h
    exact List.of_mem_filter (List.take_subset 5 _ hq)

/-- C4 witness: applying the theorem at a concrete two-block input whose
first record is returned. -/
theorem C4_witness :
    is_valid_question ⟨some "What is 2+2?", some ["3", "4", "5", "6"], some "b"⟩ = true :=
  C4_all_returned_records_valid
    "Question 1: What is 2+2?\nA) 3\nB) 4\nC) 5\nD) 6\nAnswer: B\nQuestion 2: x"
    [⟨some "What is 2+2?", some ["3", "4", "5", "6"], some "b"⟩]
    rfl _ (List.Mem.head _)

/-- C5: whenever `parse_quiz` returns a list, its length is at most 5: the
accepted records are truncated with `[:5]`. -/
theorem C5_at_most_five (s : String) (l : List QDict)
    (h : parse_quiz s = Except.ok l) : l.length ≤ 5 := by
  unfold parse_quiz at h
  cases hrun : runLines ([], emptyQ) (splitLines s) with
  | error e => rw [hrun] at h; cases h
  | ok st =>
    rw [hrun] at h
    cases h
    exact List.length_take_le 5 _

/-- C5 witness: applying the theorem at a concrete input. -/
theorem C5_witness :
    ([⟨some "What is 2+2?", some ["3", "4", "5", "6"], some "b"⟩] : List QDict).length ≤ 5 :=
  C5_at_most_five
    "Question 1: What is 2+2?\nA) 3\nB) 4\nC) 5\nD) 6\nAnswer: B\nQuestion 2: x"
    [⟨some "What is 2+2?", some ["3", "4", "5", "6"], some "b"⟩] rfl

/-- C3 counterexample: an option line met before any question line is not
silently ignored — it raises `KeyError`, and the well-formed block that
follows it is lost with the whole parse. -/
theorem C3_counterexample :
    parse_quiz "A) x\nQuestion 1: q\nA) 1\nB) 2\nC) 3\nD) 4\nAnswer: a" =
      Except.error PyError.keyError := rfl

/-- C3 (amended): with no record open, an option-marker line raises
`KeyError` (aborting the parse), while an answer line whose last colon
segment is non-empty writes an answer-only accumulator — a state change,
but one that can never produce a valid output record. -/
theorem C3_no_open_record (qs : List QDict) (l : String) :
    (isQuestionLine l = false → isOptionLine l = true →
      processLine (qs, emptyQ) l = Except.error PyError.keyError) ∧
    (∀ c cs, isQuestionLine l = false → isOptionLine l = false → isAnswerLine l = true →
      (answerSegment l).data = c :: cs →
      processLine (qs, emptyQ) l =
        Except.ok (qs, ⟨none, none, some (String.singleton c)⟩) ∧
      is_valid_question ⟨none, none, some (String.singleton c)⟩ = false) := by
  constructor
  · intro hq ho
    simp only [processLine, hq, ho, Bool.false_eq_true, if_false, if_true]
    rfl
  · intro c cs hq ho ha hseg
    refine ⟨?_, rfl⟩
    simp only [processLine, hq, ho, ha, hseg, Bool.false_eq_true, if_false, if_true]
    rfl

/-- C3 witness: applying the theorem at the lines `"A) x"` and
`"Answer: b"`, each seen with no open record. -/
theorem C3_witness :
    processLine ([], emptyQ) "A) x" = Except.error PyError.keyError ∧
    (processLine ([], emptyQ) "Answer: b" = Except.ok ([], ⟨none, none, some "b"⟩) ∧
      is_valid_question ⟨none, none, some "b"⟩ = false) :=
  ⟨(C3_no_open_record [] "A) x").1 (by decide) (by decide),
   (C3_no_open_record [] "Answer: b").2 'b' [] (by decide) (by decide) (by decide) (by decide)⟩

/-- C6: evaluation at five well-formed blocks `Question 1`..`Question 5`.
Only the first four records are returned (in textual order); the fifth —
the record still open at end of input — is never appended. -/
theorem C6_fifth_block_dropped :
    parse_quiz
      "Question 1: q1\nA) 1\nB) 2\nC) 3\nD) 4\nAnswer: a\nQuestion 2: q2\nA) 1\nB) 2\nC) 3\nD) 4\nAnswer: b\nQuestion 3: q3\nA) 1\nB) 2\nC) 3\nD) 4\nAnswer: c\nQuestion 4: q4\nA) 1\nB) 2\nC) 3\nD) 4\nAnswer: d\nQuestion 5: q5\nA) 1\nB) 2\nC) 3\nD) 4\nAnswer: a" =
      Except.ok
        [⟨some "q1", some ["1", "2", "3", "4"], some "a"⟩,
         ⟨some "q2", some ["1", "2", "3", "4"], some "b"⟩,
         ⟨some "q3", some ["1", "2", "3", "4"], some "c"⟩,
         ⟨some "q4", some ["1", "2", "3", "4"], some "d"⟩] := rfl

/-- C7 counterexample: on the answer line `"Answer: B: C"` the parser stores
`"c"` — the first letter after the last colon — not `"b"`, the first letter
after the first colon as the claim states. -/
theorem C7_counterexample :
    parse_quiz "Question 1: q\nA) 1\nB) 2\nC) 3\nD) 4\nAnswer: B: C\nQuestion 2: x" =
      Except.ok [⟨some "q", some ["1", "2", "3", "4"], some "c"⟩] ∧
    ("c" : String) ≠ "b" :=
  ⟨rfl, by decide⟩

/-- C7 (amended): on an answer line the parser stores the first letter of
the trimmed, lower-cased text following the LAST colon of the line. -/
theorem C7_answer_from_last_colon_segment (qs : List QDict) (cur : QDict) (l : String)
    (c : Char) (cs : List Char)
    (hq : isQuestionLine l = false) (ho : isOptionLine l = false) (ha : isAnswerLine l = true)
    (hseg : (answerSegment l).data = c :: cs) :
    processLine (qs, cur) l = Except.ok (qs, { cur with answer := some (String.singleton c) }) := by
  simp only [processLine, hq, ho, ha, hseg, Bool.false_eq_true, if_false, if_true]

/-- C7 witness: `"Answer: B"` stores `"b"`; `"Answer: B: C"` stores `"c"`. -/
theorem C7_witness :
    processLine ([], emptyQ) "Answer: B" =
      Except.ok ([], { emptyQ with answer := some "b" }) ∧
    processLine ([], emptyQ) "Answer: B: C" =
      Except.ok ([], { emptyQ with answer := some "c" }) :=
  ⟨C7_answer_from_last_colon_segment [] emptyQ "Answer: B" 'b' []
      (by decide) (by decide) (by decide) (by decide),
   C7_answer_from_last_colon_segment [] emptyQ "Answer: B: C" 'c' []
      (by decide) (by decide) (by decide) (by decide)⟩

/-- C8 counterexample: with an open record, the lower-case line `"a) 1"` is
not classified as an option line (the state is unchanged), while `"A) 1"`
is (an option is appended). -/
theorem C8_counterexample :
    processLine ([], ⟨some "q", some [], some ""⟩) "a) 1" =
      Except.ok ([], ⟨some "q", some [], some ""⟩) ∧
    processLine ([], ⟨some "q", some [], some ""⟩) "A) 1" =
      Except.ok ([], ⟨some "q", some ["1"], some ""⟩) :=
  ⟨rfl, rfl⟩

/-- C8 (amended): classification is case-insensitive for the question and
answer prefixes but case-sensitive for the option markers: only upper-case
`A)`..`D)` are option lines, while `a)` is not. -/
theorem C8_option_markers_case_sensitive (cs : List Char) :
    isOptionLine ⟨'a' :: ')' :: cs⟩ = false ∧
    isOptionLine ⟨'A' :: ')' :: cs⟩ = true ∧
    isQuestionLine ⟨'Q' :: 'U' :: 'E' :: 'S' :: 'T' :: 'I' :: 'O' :: 'N' :: cs⟩ = true ∧
    isAnswerLine ⟨'A' :: 'N' :: 'S' :: 'W' :: 'E' :: 'R' :: ':' :: cs⟩ = true := by
  refine ⟨rfl, ?_, ?_, ?_⟩ <;>
    simp [isOptionLine, isQuestionLine, isAnswerLine, pyStartsWith, pyLower, List.isPrefixOf]

/-- C9 counterexample: for the line `"A)3"` the appended option is the empty
string, not `"3"`: the fixed `[3:]` slice consumes the third character. -/
theorem C9_counterexample :
    processLine ([], ⟨some "q", some [], some ""⟩) "A)3" =
      Except.ok ([], ⟨some "q", some [""], some ""⟩) ∧
    ("" : String) ≠ "3" :=
  ⟨rfl, by decide⟩

/-- C9 (amended): on an option line with an open record, the appended
string is the text after the first THREE characters of the line, trimmed
(`"A) 3"` appends `"3"`, `"A)3"` appends `""`). -/
theorem C9_option_text_after_three_chars (qs : List QDict) (cur : QDict) (os : List String)
    (l : String) (hq : isQuestionLine l = false) (ho : isOptionLine l = true)
    (hos : cur.options = some os) :
    processLine (qs, cur) l =
      Except.ok (qs, { cur with options := some (os ++ [pyStrip (pyDropChars l 3)]) }) := by
  simp only [processLine, hq, ho, hos, Bool.false_eq_true, if_false, if_true]

/-- C9 witness: `"A) 3"` appends `"3"` to the open record's options. -/
theorem C9_witness :
    processLine ([], ⟨some "q", some [], some ""⟩) "A) 3" =
      Except.ok ([], ⟨some "q", some ["3"], some ""⟩) :=
  C9_option_text_after_three_chars [] ⟨some "q", some [], some ""⟩ [] "A) 3"
    (by decide) (by decide) rfl

/-- C10 counterexample: on the single-block input whose four option lines
all use the marker `A)`, the record never reaches the output — the last
open record is never appended, so the result is empty. -/
theorem C10_counterexample :
    parse_quiz "Question 1: q\nA) 1\nA) 2\nA) 3\nA) 4\nAnswer: a" = Except.ok [] := rfl

/-- C10 (amended): marker distinctness and order are indeed never checked —
once a further question line flushes the record, a block whose four option
lines all use the marker `A)` yields a record with 4 options that passes
the validity filter and appears in the output. -/
theorem C10_duplicate_markers_accepted :
    parse_quiz "Question 1: q\nA) 1\nA) 2\nA) 3\nA) 4\nAnswer: a\nQuestion 2: x" =
      Except.ok [⟨some "q", some ["1", "2", "3", "4"], some "a"⟩] := rfl
